import Mathlib

/-!
Shallow embedding of `src/python/lightrag_wrapper.py` (class `LightRAGWrapper`):
the JSON-RPC dispatcher `handle_request`, the stdin/stdout transport loop `run`,
and the handlers `initialize`, `index_files`, `insert_text`, `search_code`,
`get_entity`, `get_relationships`, `visualize_subgraph`, `get_indexing_status`,
`ping`.

Modelling conventions:
* JSON values (what `json.loads` yields and handlers return) are `JsonVal`;
  a Python dict is a `List (String × JsonVal)` looked up by key.
* Python exceptions are `PyErr` (type name + message); fallible code returns
  `Except PyErr _`.
* The external collaborators (filesystem, the LightRAG engine's `ainsert` /
  `aquery`, module availability, `json.loads`) are an oracle record `Env`.
* The wrapper's mutable fields `self.rag` / `self._initialized` are the
  `State` record (field `isInit` embeds `_initialized`; the token itself is
  reserved here).  `LightRAGWrapper.initialize` is embedded as `ensureReady`
  (again, the Python name is a reserved token in this development).
* Side effects on the engine are recorded as an explicit `Effect` trace so
  that "the handle is constructed at most once" and "no handler ran" are
  observable propositions.
-/

/-- A JSON value, as produced by `json.loads` / consumed by `json.dumps`.
Numbers are modelled as integers (no claim depends on floats). -/
inductive JsonVal where
  | null : JsonVal
  | bool : Bool → JsonVal
  | num : Int → JsonVal
  | str : String → JsonVal
  | arr : List JsonVal → JsonVal
  | obj : List (String × JsonVal) → JsonVal
deriving Repr

/-- A Python exception: its class name (`type(e).__name__`) and `str(e)`. -/
structure PyErr where
  ty : String
  msg : String
deriving Repr, DecidableEq

/-- The configuration captured by `LightRAGWrapper.__init__` (the
`neo4j_username or "neo4j"` defaulting has already been applied). -/
structure Config where
  working_dir : String
  openai_api_key : String
  openai_base_url : String
  openai_model : String
  openai_embedding_model : String
  milvus_address : Option String
  neo4j_uri : Option String
  neo4j_username : String
  neo4j_password : Option String
deriving Repr, DecidableEq

/-- The constructed LightRAG engine handle (`self.rag`): the arguments the
`LightRAG(...)` constructor call receives that vary with configuration. -/
structure Handle where
  working_dir : String
  llm_model_name : String
  embedding_dim : Nat
  graph_storage : Option String
  vector_storage : Option String
deriving Repr, DecidableEq

/-- The wrapper's mutable state: `self.rag` and `self._initialized`
(the latter field is called `isInit` here). -/
structure State where
  rag : Option Handle
  isInit : Bool
deriving Repr, DecidableEq

/-- Observable side effects on the external engine. -/
inductive Effect where
  | constructEngine : Effect
  | insert : String → Effect
  | query : String → Effect
deriving Repr, DecidableEq

/-- The query configuration `QueryParam(**query_params)` built by
`search_code` (and the fixed ones built by the probe handlers). -/
structure QueryParam where
  mode : String := "global"
  only_need_context : Bool := false
  top_k : Int := 60
  response_type : String := "Multiple Paragraphs"
  max_token_for_text_unit : Int := 4000
  max_token_for_global_context : Int := 4000
  max_token_for_local_context : Int := 4000
  hl_keywords : Option (List String) := none
  ll_keywords : Option (List String) := none
deriving Repr, DecidableEq

/-- Oracle for everything outside the wrapper: module availability (the
`ImportError` fallbacks), the filesystem, the engine's insert/query
operations, the working-directory size scan, and `json.loads`. -/
structure Env where
  neo4jAvailable : Bool
  milvusAvailable : Bool
  fileExists : String → Bool
  readFile : String → Except PyErr String
  ainsert : String → Except PyErr Unit
  aquery : String → QueryParam → Except PyErr String
  workingDirSize : Nat
  jsonLoads : String → Except PyErr JsonVal

/-- `d.get(k)`: the value at `k`, or Python `None` when absent. -/
def dictGet (d : List (String × JsonVal)) (k : String) : JsonVal :=
  (d.lookup k).getD JsonVal.null

/-- `d.get(k, default)`. -/
def dictGetD (d : List (String × JsonVal)) (k : String) (default : JsonVal) : JsonVal :=
  (d.lookup k).getD default

/-- Whether key `k` is present in the dict. -/
def hasKey (d : List (String × JsonVal)) (k : String) : Bool :=
  (d.lookup k).isSome

/-- A single-quote character, used by Python `repr` of strings. -/
def pyQuote : String := String.singleton (Char.ofNat 39)

/-- Python `==` between a JSON-decoded value and a string literal, as in the
`method == "ping"` chain: true exactly for the equal string. -/
def jeqStr : JsonVal → String → Bool
  | .str s, t => s == t
  | _, _ => false

mutual
/-- Python `repr` of a JSON-decoded value (approximate for containers,
exact for `None` / booleans / integers / strings). -/
def pyRepr : JsonVal → String
  | .null => "None"
  | .bool true => "True"
  | .bool false => "False"
  | .num n => toString n
  | .str s => pyQuote ++ s ++ pyQuote
  | .arr xs => "[" ++ String.intercalate ", " (pyReprElems xs) ++ "]"
  | .obj fs => "\x7b" ++ String.intercalate ", " (pyReprFields fs) ++ "\x7d"

def pyReprElems : List JsonVal → List String
  | [] => []
  | x :: xs => pyRepr x :: pyReprElems xs

def pyReprFields : List (String × JsonVal) → List String
  | [] => []
  | (k, v) :: kvs => (pyQuote ++ k ++ pyQuote ++ ": " ++ pyRepr v) :: pyReprFields kvs
end

/-- Python `str()` as used in f-string interpolation: the identity on
strings, `repr`-like elsewhere. -/
def pyStr : JsonVal → String
  | .str s => s
  | v => pyRepr v

/-- Python truthiness of an optional string (as in
`if self.neo4j_uri and self.neo4j_password:`): present and non-empty. -/
def pyTruthyStr : Option String → Bool
  | none => false
  | some s => !(s == "")

/-- Python `pat in s` on the character lists. -/
def listContainsSub (pat : List Char) : List Char → Bool
  | [] => pat.isEmpty
  | c :: rest => pat.isPrefixOf (c :: rest) || listContainsSub pat rest

/-- Python substring test `pat in s`. -/
def pyIn (pat s : String) : Bool := listContainsSub pat.data s.data

/-- The `storage_kwargs` selection in `initialize` (lines 66-93):
graph backend `Neo4JStorage` when a Neo4J uri and password are configured and
the module imports, vector backend `MilvusVectorDBStorage` when a Milvus
address is configured and the module imports; otherwise absent (the engine
falls back to its defaults). -/
def storageSelection (cfg : Config) (env : Env) : Option String × Option String :=
  let graph :=
    if pyTruthyStr cfg.neo4j_uri && pyTruthyStr cfg.neo4j_password && env.neo4jAvailable
    then some "Neo4JStorage" else none
  let vector :=
    if pyTruthyStr cfg.milvus_address && env.milvusAvailable
    then some "MilvusVectorDBStorage" else none
  (graph, vector)

/-- `LightRAGWrapper.initialize` (lines 59-115), named `ensureReady` here:
a no-op when `_initialized` is already set; otherwise selects storage
backends, constructs the engine handle, stores it in `rag` and sets the
flag.  The construction is recorded as an `Effect.constructEngine`. -/
def ensureReady (st : State) (cfg : Config) (env : Env) : State × List Effect :=
  if st.isInit then (st, [])
  else
    let sel := storageSelection cfg env
    let dim : Nat := if pyIn "text-embedding-3" cfg.openai_embedding_model then 3072 else 1536
    let h : Handle :=
      { working_dir := cfg.working_dir
        llm_model_name := cfg.openai_model
        embedding_dim := dim
        graph_storage := sel.1
        vector_storage := sel.2 }
    ({ rag := some h, isInit := true }, [Effect.constructEngine])

/-- Python type name of a JSON-decoded value, as used in `TypeError`
messages. -/
def jsonTypeName : JsonVal → String
  | .null => "NoneType"
  | .bool _ => "bool"
  | .num _ => "int"
  | .str _ => "str"
  | .arr _ => "list"
  | .obj _ => "dict"

/-- Python truthiness of an optional list (as in `if hl_keywords:`). -/
def pyTruthyList : Option (List String) → Bool
  | none => false
  | some l => !l.isEmpty

/-- Python `opt or default` on an optional string (empty string is falsy). -/
def pyOrStr (o : Option String) (d : String) : String :=
  if pyTruthyStr o then o.getD d else d

/-- Decode a JSON value annotated `str` in the handler signature. -/
def decodeStr (what : String) : JsonVal → Except PyErr String
  | .str s => .ok s
  | v => .error ⟨"TypeError", what ++ " must be str, not " ++ jsonTypeName v⟩

/-- Decode a JSON value annotated `int`. -/
def decodeInt (what : String) : JsonVal → Except PyErr Int
  | .num n => .ok n
  | v => .error ⟨"TypeError", what ++ " must be int, not " ++ jsonTypeName v⟩

/-- Decode a JSON value annotated `bool`. -/
def decodeBool (what : String) : JsonVal → Except PyErr Bool
  | .bool b => .ok b
  | v => .error ⟨"TypeError", what ++ " must be bool, not " ++ jsonTypeName v⟩

/-- Decode every element of a JSON array as a string. -/
def decodeStrElems (what : String) : List JsonVal → Except PyErr (List String)
  | [] => .ok []
  | x :: xs => do
    let s ← decodeStr what x
    let rest ← decodeStrElems what xs
    .ok (s :: rest)

/-- Decode a JSON value annotated `List[str]`. -/
def decodeStrList (what : String) : JsonVal → Except PyErr (List String)
  | .arr xs => decodeStrElems what xs
  | v => .error ⟨"TypeError", what ++ " must be list, not " ++ jsonTypeName v⟩

/-- Decode a JSON value annotated `Optional[List[str]]` (null means absent). -/
def decodeOptStrList (what : String) : JsonVal → Except PyErr (Option (List String))
  | .null => .ok none
  | v => do
    let l ← decodeStrList what v
    .ok (some l)

/-- Decode a JSON value annotated `Optional[str]` (null means absent). -/
def decodeOptStr (what : String) : JsonVal → Except PyErr (Option String)
  | .null => .ok none
  | v => do
    let s ← decodeStr what v
    .ok (some s)

/-- Keyword binding of `handler(**params)` against the handler's declared
parameter names: an unexpected key or a missing required key raises
`TypeError` before any of the handler's body runs. -/
def bindCheck (fname : String) (required optionalNames : List String)
    (kvs : List (String × JsonVal)) : Except PyErr Unit :=
  match kvs.find? (fun kv => !(required.contains kv.1 || optionalNames.contains kv.1)) with
  | some kv =>
    .error ⟨"TypeError",
      fname ++ "() got an unexpected keyword argument " ++ pyQuote ++ kv.1 ++ pyQuote⟩
  | none =>
    match required.find? (fun r => !(hasKey kvs r)) with
    | some r =>
      .error ⟨"TypeError",
        fname ++ "() missing 1 required positional argument: " ++ pyQuote ++ r ++ pyQuote⟩
    | none => .ok ()

/-- The call `handler(**params)` made by `handle_request`: `params` must be a
mapping and must bind to the declared parameter names; only then does the
handler body start executing. -/
def callBound (fname : String) (required optionalNames : List String) (params : JsonVal)
    (st : State) (h : List (String × JsonVal) → Except PyErr JsonVal × State × List Effect) :
    Except PyErr JsonVal × State × List Effect :=
  match params with
  | .obj kvs =>
    match bindCheck fname required optionalNames kvs with
    | .error e => (.error e, st, [])
    | .ok _ => h kvs
  | _ =>
    (.error ⟨"TypeError",
      fname ++ "() argument after ** must be a mapping, not " ++ jsonTypeName params⟩,
     st, [])

/-- `LightRAGWrapper.ping` (lines 331-333): health check; touches neither
the state nor the engine. -/
def ping (st : State) : Except PyErr JsonVal × State × List Effect :=
  (.ok (.str "pong"), st, [])

/-- The per-file loop body of `index_files` (lines 126-143): a missing file
or a read/insert failure appends one message to `errors` and moves on; a
successful insert bumps `success_count`. -/
def indexLoop (env : Env) : List String → Nat × List String × List Effect
  | [] => (0, [], [])
  | fp :: rest =>
    let acc := indexLoop env rest
    if env.fileExists fp = false then
      (acc.1, ("File not found: " ++ fp) :: acc.2.1, acc.2.2)
    else
      match env.readFile fp with
      | .error e =>
        (acc.1, ("Error indexing " ++ fp ++ ": " ++ e.msg) :: acc.2.1, acc.2.2)
      | .ok content =>
        match env.ainsert content with
        | .ok _ => (acc.1 + 1, acc.2.1, Effect.insert content :: acc.2.2)
        | .error e =>
          (acc.1, ("Error indexing " ++ fp ++ ": " ++ e.msg) :: acc.2.1,
           Effect.insert content :: acc.2.2)

/-- `LightRAGWrapper.index_files` (lines 117-153): ensure readiness, then
index each file, accumulating per-file outcomes; always returns the
`success_count` / `error_count` / `errors` / `total` result object. -/
def index_files (file_paths : List String) (st : State) (cfg : Config) (env : Env) :
    Except PyErr JsonVal × State × List Effect :=
  let (st1, tr1) := ensureReady st cfg env
  let (succ, errs, tr2) := indexLoop env file_paths
  (.ok (.obj [("success_count", .num succ),
              ("error_count", .num errs.length),
              ("errors", .arr (errs.map JsonVal.str)),
              ("total", .num file_paths.length)]),
   st1, tr1 ++ tr2)

/-- `LightRAGWrapper.insert_text` (lines 155-175): ensure readiness, forward
the text to the engine's insert; absorb an insert failure into a
`success = false` result.  The `metadata` parameter is accepted but unused,
exactly as in the source. -/
def insert_text (text : String) (metadata : Option JsonVal) (st : State) (cfg : Config)
    (env : Env) : Except PyErr JsonVal × State × List Effect :=
  let (st1, tr1) := ensureReady st cfg env
  match env.ainsert text with
  | .ok _ =>
    (.ok (.obj [("success", .bool true),
                ("message",
                 .str ("Successfully inserted " ++ toString text.length ++ " characters"))]),
     st1, tr1 ++ [Effect.insert text])
  | .error e =>
    (.ok (.obj [("success", .bool false),
                ("message", .str ("Error inserting text: " ++ e.msg))]),
     st1, tr1 ++ [Effect.insert text])

/-- The typed arguments of `search_code` with their declared defaults
(lines 177-189). -/
structure SearchArgs where
  query : String
  mode : String := "hybrid"
  top_k : Int := 10
  only_context : Bool := false
  response_type : String := "Multiple Paragraphs"
  max_token_for_text_unit : Int := 4000
  max_token_for_global_context : Int := 4000
  max_token_for_local_context : Int := 4000
  hl_keywords : Option (List String) := none
  ll_keywords : Option (List String) := none
deriving Repr, DecidableEq

/-- `LightRAGWrapper.search_code` (lines 177-231): builds a `QueryParam`
(keyword lists only when truthy) and queries the engine; a query failure is
re-raised to the dispatcher. -/
def search_code (a : SearchArgs) (st : State) (cfg : Config) (env : Env) :
    Except PyErr JsonVal × State × List Effect :=
  let (st1, tr1) := ensureReady st cfg env
  let qp : QueryParam :=
    { mode := a.mode
      only_need_context := a.only_context
      top_k := a.top_k
      response_type := a.response_type
      max_token_for_text_unit := a.max_token_for_text_unit
      max_token_for_global_context := a.max_token_for_global_context
      max_token_for_local_context := a.max_token_for_local_context
      hl_keywords := if pyTruthyList a.hl_keywords then a.hl_keywords else none
      ll_keywords := if pyTruthyList a.ll_keywords then a.ll_keywords else none }
  match env.aquery a.query qp with
  | .ok answer =>
    (.ok (.obj [("answer", .str answer), ("query", .str a.query),
                ("mode", .str a.mode), ("top_k", .num a.top_k)]),
     st1, tr1 ++ [Effect.query a.query])
  | .error e => (.error e, st1, tr1 ++ [Effect.query a.query])

/-- `LightRAGWrapper.get_entity` (lines 233-248): synthesizes a probe
question and queries in local, context-only mode. -/
def get_entity (entity_name : String) (st : State) (cfg : Config) (env : Env) :
    Except PyErr JsonVal × State × List Effect :=
  let (st1, tr1) := ensureReady st cfg env
  let q := "Describe the entity " ++ pyQuote ++ entity_name ++ pyQuote
    ++ " in detail. Include its purpose, methods, and usage."
  match env.aquery q { mode := "local", only_need_context := true, top_k := 10 } with
  | .ok result =>
    (.ok (.obj [("entity_name", .str entity_name), ("description", .str result),
                ("search_mode", .str "local")]),
     st1, tr1 ++ [Effect.query q])
  | .error e => (.error e, st1, tr1 ++ [Effect.query q])

/-- `LightRAGWrapper.get_relationships` (lines 250-277): probe question
parameterized by the (truthy) relation type and depth, local-mode query. -/
def get_relationships (entity_name : String) (relation_type : Option String) (depth : Int)
    (st : State) (cfg : Config) (env : Env) :
    Except PyErr JsonVal × State × List Effect :=
  let (st1, tr1) := ensureReady st cfg env
  let q :=
    if pyTruthyStr relation_type then
      "What " ++ relation_type.getD "" ++ " relationships does " ++ pyQuote ++ entity_name
        ++ pyQuote ++ " have? Show dependencies up to depth " ++ toString depth ++ "."
    else
      "What are all the relationships for " ++ pyQuote ++ entity_name ++ pyQuote
        ++ "? Include calls, inheritance, and dependencies up to depth " ++ toString depth ++ "."
  match env.aquery q { mode := "local", top_k := 20 } with
  | .ok result =>
    (.ok (.obj [("entity_name", .str entity_name),
                ("relation_type", .str (pyOrStr relation_type "all")),
                ("depth", .num depth),
                ("relationships", .str result)]),
     st1, tr1 ++ [Effect.query q])
  | .error e => (.error e, st1, tr1 ++ [Effect.query q])

/-- `LightRAGWrapper.visualize_subgraph` (lines 279-308): hybrid query with
`top_k = max_nodes`, then a stub two-node Mermaid diagram. -/
def visualize_subgraph (query format : String) (max_nodes : Int)
    (st : State) (cfg : Config) (env : Env) :
    Except PyErr JsonVal × State × List Effect :=
  let (st1, tr1) := ensureReady st cfg env
  let q := query ++ ". List all entities and their relationships."
  match env.aquery q { mode := "hybrid", top_k := max_nodes } with
  | .ok result =>
    let diagram := "graph TD\n" ++ "    Query[\"" ++ query ++ "\"]\n"
      ++ "    Result[\"" ++ result.take 100 ++ "...\"]\n"
      ++ "    Query --> Result\n"
    (.ok (.obj [("query", .str query), ("format", .str format),
                ("diagram", .str diagram), ("max_nodes", .num max_nodes)]),
     st1, tr1 ++ [Effect.query q])
  | .error e => (.error e, st1, tr1 ++ [Effect.query q])

/-- `LightRAGWrapper.get_indexing_status` (lines 310-329): ensure readiness,
report the flag, working directory, its on-disk size and the configured
backends (`or`-defaulted). -/
def get_indexing_status (st : State) (cfg : Config) (env : Env) :
    Except PyErr JsonVal × State × List Effect :=
  let (st1, tr1) := ensureReady st cfg env
  (.ok (.obj [("initialized", .bool st1.isInit),
              ("working_dir", .str cfg.working_dir),
              ("working_dir_size_bytes", .num env.workingDirSize),
              ("storage_backends",
               .obj [("milvus", .str (pyOrStr cfg.milvus_address "NanoVectorDB")),
                     ("neo4j", .str (pyOrStr cfg.neo4j_uri "NetworkX"))])]),
   st1, tr1)

/-- The `index_files(**params)` call after binding: readiness first (the
body's first statement), then the declared `List[str]` argument. -/
def index_files_rpc (kvs : List (String × JsonVal)) (st : State) (cfg : Config) (env : Env) :
    Except PyErr JsonVal × State × List Effect :=
  let (st1, tr1) := ensureReady st cfg env
  match decodeStrList "file_paths" (dictGet kvs "file_paths") with
  | .error e => (.error e, st1, tr1)
  | .ok paths =>
    let (r, st2, tr2) := index_files paths st1 cfg env
    (r, st2, tr1 ++ tr2)

/-- The `insert_text(**params)` call after binding. -/
def insert_text_rpc (kvs : List (String × JsonVal)) (st : State) (cfg : Config) (env : Env) :
    Except PyErr JsonVal × State × List Effect :=
  let (st1, tr1) := ensureReady st cfg env
  match decodeStr "text" (dictGet kvs "text") with
  | .error e => (.error e, st1, tr1)
  | .ok text =>
    let (r, st2, tr2) := insert_text text (kvs.lookup "metadata") st1 cfg env
    (r, st2, tr1 ++ tr2)

/-- Decoding of the ten `search_code` keyword arguments, each falling back
to its declared default when the key is absent. -/
def decodeSearchArgs (kvs : List (String × JsonVal)) : Except PyErr SearchArgs := do
  let query ← decodeStr "query" (dictGet kvs "query")
  let mode ← match kvs.lookup "mode" with
    | none => pure "hybrid"
    | some v => decodeStr "mode" v
  let top_k ← match kvs.lookup "top_k" with
    | none => pure (10 : Int)
    | some v => decodeInt "top_k" v
  let only_context ← match kvs.lookup "only_context" with
    | none => pure false
    | some v => decodeBool "only_context" v
  let response_type ← match kvs.lookup "response_type" with
    | none => pure "Multiple Paragraphs"
    | some v => decodeStr "response_type" v
  let mtt ← match kvs.lookup "max_token_for_text_unit" with
    | none => pure (4000 : Int)
    | some v => decodeInt "max_token_for_text_unit" v
  let mtg ← match kvs.lookup "max_token_for_global_context" with
    | none => pure (4000 : Int)
    | some v => decodeInt "max_token_for_global_context" v
  let mtl ← match kvs.lookup "max_token_for_local_context" with
    | none => pure (4000 : Int)
    | some v => decodeInt "max_token_for_local_context" v
  let hl ← match kvs.lookup "hl_keywords" with
    | none => pure (none : Option (List String))
    | some v => decodeOptStrList "hl_keywords" v
  let ll ← match kvs.lookup "ll_keywords" with
    | none => pure (none : Option (List String))
    | some v => decodeOptStrList "ll_keywords" v
  .ok { query := query, mode := mode, top_k := top_k, only_context := only_context,
        response_type := response_type, max_token_for_text_unit := mtt,
        max_token_for_global_context := mtg, max_token_for_local_context := mtl,
        hl_keywords := hl, ll_keywords := ll }

/-- The `search_code(**params)` call after binding. -/
def search_code_rpc (kvs : List (String × JsonVal)) (st : State) (cfg : Config) (env : Env) :
    Except PyErr JsonVal × State × List Effect :=
  let (st1, tr1) := ensureReady st cfg env
  match decodeSearchArgs kvs with
  | .error e => (.error e, st1, tr1)
  | .ok a =>
    let (r, st2, tr2) := search_code a st1 cfg env
    (r, st2, tr1 ++ tr2)

/-- The `get_entity(**params)` call after binding. -/
def get_entity_rpc (kvs : List (String × JsonVal)) (st : State) (cfg : Config) (env : Env) :
    Except PyErr JsonVal × State × List Effect :=
  let (st1, tr1) := ensureReady st cfg env
  match decodeStr "entity_name" (dictGet kvs "entity_name") with
  | .error e => (.error e, st1, tr1)
  | .ok name =>
    let (r, st2, tr2) := get_entity name st1 cfg env
    (r, st2, tr1 ++ tr2)

/-- The `get_relationships(**params)` call after binding. -/
def get_relationships_rpc (kvs : List (String × JsonVal)) (st : State) (cfg : Config)
    (env : Env) : Except PyErr JsonVal × State × List Effect :=
  let (st1, tr1) := ensureReady st cfg env
  match (do
      let name ← decodeStr "entity_name" (dictGet kvs "entity_name")
      let rt ← match kvs.lookup "relation_type" with
        | none => pure (none : Option String)
        | some v => decodeOptStr "relation_type" v
      let depth ← match kvs.lookup "depth" with
        | none => pure (1 : Int)
        | some v => decodeInt "depth" v
      (.ok (name, rt, depth) : Except PyErr (String × Option String × Int))) with
  | .error e => (.error e, st1, tr1)
  | .ok (name, rt, depth) =>
    let (r, st2, tr2) := get_relationships name rt depth st1 cfg env
    (r, st2, tr1 ++ tr2)

/-- The `visualize_subgraph(**params)` call after binding. -/
def visualize_subgraph_rpc (kvs : List (String × JsonVal)) (st : State) (cfg : Config)
    (env : Env) : Except PyErr JsonVal × State × List Effect :=
  let (st1, tr1) := ensureReady st cfg env
  match (do
      let query ← decodeStr "query" (dictGet kvs "query")
      let format ← match kvs.lookup "format" with
        | none => pure "mermaid"
        | some v => decodeStr "format" v
      let maxNodes ← match kvs.lookup "max_nodes" with
        | none => pure (20 : Int)
        | some v => decodeInt "max_nodes" v
      (.ok (query, format, maxNodes) : Except PyErr (String × String × Int))) with
  | .error e => (.error e, st1, tr1)
  | .ok (query, format, maxNodes) =>
    let (r, st2, tr2) := visualize_subgraph query format maxNodes st1 cfg env
    (r, st2, tr1 ++ tr2)

/-- The `if method == ... / elif ... / else raise ValueError` routing chain
of `handle_request` (lines 342-361), with the outcome of the routed call (or
the raised error) still unwrapped.  `ping` and `get_indexing_status` are
called without `**params`, exactly as in the source. -/
def dispatch (method params : JsonVal) (st : State) (cfg : Config) (env : Env) :
    Except PyErr JsonVal × State × List Effect :=
  if jeqStr method "ping" then ping st
  else if jeqStr method "index_files" then
    callBound "index_files" ["file_paths"] [] params st
      (fun kvs => index_files_rpc kvs st cfg env)
  else if jeqStr method "search_code" then
    callBound "search_code" ["query"]
      ["mode", "top_k", "only_context", "response_type", "max_token_for_text_unit",
       "max_token_for_global_context", "max_token_for_local_context",
       "hl_keywords", "ll_keywords"] params st
      (fun kvs => search_code_rpc kvs st cfg env)
  else if jeqStr method "get_entity" then
    callBound "get_entity" ["entity_name"] [] params st
      (fun kvs => get_entity_rpc kvs st cfg env)
  else if jeqStr method "get_relationships" then
    callBound "get_relationships" ["entity_name"] ["relation_type", "depth"] params st
      (fun kvs => get_relationships_rpc kvs st cfg env)
  else if jeqStr method "visualize_subgraph" then
    callBound "visualize_subgraph" ["query"] ["format", "max_nodes"] params st
      (fun kvs => visualize_subgraph_rpc kvs st cfg env)
  else if jeqStr method "get_indexing_status" then get_indexing_status st cfg env
  else if jeqStr method "insert_text" then
    callBound "insert_text" ["text"] ["metadata"] params st
      (fun kvs => insert_text_rpc kvs st cfg env)
  else (.error ⟨"ValueError", "Unknown method: " ++ pyStr method⟩, st, [])

/-- `LightRAGWrapper.handle_request` (lines 335-379): extract the envelope
fields with their defaults, route, and wrap the outcome — a returned value
under `"result"`, any raised error under `"error"` with code `-32603`, the
message, and the error's type name, always echoing the request id. -/
def handle_request (request : List (String × JsonVal)) (st : State) (cfg : Config)
    (env : Env) : List (String × JsonVal) × State × List Effect :=
  let jsonrpc := dictGetD request "jsonrpc" (.str "2.0")
  let requestId := dictGet request "id"
  let method := dictGet request "method"
  let params := dictGetD request "params" (.obj [])
  match dispatch method params st cfg env with
  | (.ok result, st1, tr) =>
    ([("jsonrpc", jsonrpc), ("id", requestId), ("result", result)], st1, tr)
  | (.error e, st1, tr) =>
    ([("jsonrpc", jsonrpc), ("id", requestId),
      ("error", .obj [("code", .num (-32603)), ("message", .str e.msg),
                      ("data", .obj [("type", .str e.ty)])])],
     st1, tr)

/-- Python `str.strip()`: drop leading and trailing whitespace. -/
def pyStrip (s : String) : String :=
  String.mk (((s.data.dropWhile Char.isWhitespace).reverse.dropWhile Char.isWhitespace).reverse)

/-- The error frame written on a `json.JSONDecodeError` (lines 410-422). -/
def parseErrorEnvelope (e : PyErr) : JsonVal :=
  .obj [("jsonrpc", .str "2.0"), ("id", .null),
        ("error", .obj [("code", .num (-32700)), ("message", .str "Parse error"),
                        ("data", .str e.msg)])]

/-- `LightRAGWrapper.run` (lines 381-425) on a finite stdin, returning the
sequence of frames written to stdout: blank lines are skipped; a line that
fails `json.loads` produces the parse-error frame and the loop continues; a
line that decodes to a JSON object is dispatched and its response frame
written; a line that decodes to a non-object raises `AttributeError` at
`request.get`, which the trailing `except Exception` swallows after logging,
so no frame is written for it. -/
def runLines (lines : List String) (st : State) (cfg : Config) (env : Env) :
    List JsonVal × State :=
  match lines with
  | [] => ([], st)
  | line :: rest =>
    let stripped := pyStrip line
    if stripped = "" then runLines rest st cfg env
    else
      match env.jsonLoads stripped with
      | .error e =>
        let acc := runLines rest st cfg env
        (parseErrorEnvelope e :: acc.1, acc.2)
      | .ok (.obj fields) =>
        let out := handle_request fields st cfg env
        let acc := runLines rest out.2.1 cfg env
        (.obj out.1 :: acc.1, acc.2)
      | .ok _ => runLines rest st cfg env

/-- One call into the wrapper: either a direct readiness call
(`await self.initialize()`) or a full dispatched request. -/
inductive Op where
  | ready : Op
  | request : List (String × JsonVal) → Op

/-- The state change and effect trace of one `Op`. -/
def applyOp (op : Op) (st : State) (cfg : Config) (env : Env) : State × List Effect :=
  match op with
  | .ready => ensureReady st cfg env
  | .request fields =>
    let out := handle_request fields st cfg env
    (out.2.1, out.2.2)

/-- Sequential execution of a list of calls, concatenating effect traces. -/
def runOps (ops : List Op) (st : State) (cfg : Config) (env : Env) : State × List Effect :=
  match ops with
  | [] => (st, [])
  | op :: rest =>
    let fst := applyOp op st cfg env
    let snd := runOps rest fst.1 cfg env
    (snd.1, fst.2 ++ snd.2)

/-- The method names `handle_request` routes (lines 344-359), in source
order. -/
def registeredMethods : List String :=
  ["ping", "index_files", "search_code", "get_entity", "get_relationships",
   "visualize_subgraph", "get_indexing_status", "insert_text"]

/-- The methods that are invoked as `handler(**params)` (all registered
methods except `ping` and `get_indexing_status`, which are called with no
arguments). -/
def boundMethods : List String :=
  ["index_files", "search_code", "get_entity", "get_relationships",
   "visualize_subgraph", "insert_text"]

/-- Declared parameter names of each bound handler: required names first,
then optional (defaulted) names, read off the `def` signatures. -/
def methodSig : String → List String × List String
  | "index_files" => (["file_paths"], [])
  | "search_code" =>
    (["query"],
     ["mode", "top_k", "only_context", "response_type", "max_token_for_text_unit",
      "max_token_for_global_context", "max_token_for_local_context",
      "hl_keywords", "ll_keywords"])
  | "get_entity" => (["entity_name"], [])
  | "get_relationships" => (["entity_name"], ["relation_type", "depth"])
  | "visualize_subgraph" => (["query"], ["format", "max_nodes"])
  | "insert_text" => (["text"], ["metadata"])
  | _ => ([], [])

/-- A well-formed response frame: a JSON object carrying an `id` and exactly
one of `result` / `error`. -/
def isResponseFrame (v : JsonVal) : Prop :=
  ∃ fields, v = JsonVal.obj fields
    ∧ hasKey fields "id" = true
    ∧ ((hasKey fields "result").xor (hasKey fields "error")) = true

/-- A concrete configuration (the environment defaults of `main`). -/
def cfg0 : Config :=
  { working_dir := "./dev-data"
    openai_api_key := "test-key"
    openai_base_url := "https://api.openai.com/v1"
    openai_model := "gpt-4"
    openai_embedding_model := "text-embedding-ada-002"
    milvus_address := none
    neo4j_uri := none
    neo4j_username := "neo4j"
    neo4j_password := none }

/-- The freshly constructed wrapper state: `rag = None`,
`_initialized = False`. -/
def st0 : State := { rag := none, isInit := false }

/-- A concrete external world used to evaluate the model on sample inputs:
no optional backends, no files on disk, an engine that accepts every insert
and answers every query, and a `json.loads` behaving as Python's does on
the few lines exercised (`"42"` is valid JSON denoting the integer 42;
`"\x7b\x7d"` denotes the empty object; anything else fails to parse). -/
def env0 : Env :=
  { neo4jAvailable := false
    milvusAvailable := false
    fileExists := fun _ => false
    readFile := fun _ => .error ⟨"OSError", "unreadable"⟩
    ainsert := fun _ => .ok ()
    aquery := fun _ _ => .ok "answer"
    workingDirSize := 0
    jsonLoads := fun s =>
      if s = "42" then .ok (.num 42)
      else if s = "\x7b\x7d" then .ok (.obj [])
      else .error ⟨"JSONDecodeError", "Expecting value: line 1 column 1 (char 0)"⟩ }

theorem jeqStr_true_iff (v : JsonVal) (s : String) : jeqStr v s = true ↔ v = JsonVal.str s := by
  cases v <;> simp [jeqStr]

theorem handle_request_fields (request : List (String × JsonVal)) (st : State) (cfg : Config)
    (env : Env) :
    ((handle_request request st cfg env).1).lookup "id" = some (dictGet request "id")
    ∧ hasKey (handle_request request st cfg env).1 "id" = true
    ∧ ((hasKey (handle_request request st cfg env).1 "result").xor
        (hasKey (handle_request request st cfg env).1 "error")) = true := by
  rcases hr : dispatch (dictGet request "method") (dictGetD request "params" (JsonVal.obj []))
      st cfg env with ⟨r | e, st1, tr⟩ <;>
    simp [handle_request, hr, hasKey, List.lookup]

/-- Claim C1: for every request object (in particular every one with a
registered method whose parameters bind), `handle_request` produces a
response whose `id` field equals the request's `id` (`null` when absent) and
which carries exactly one of the `result` / `error` fields. -/
theorem handle_request_envelope_exclusive (request : List (String × JsonVal)) (st : State)
    (cfg : Config) (env : Env) :
    ((handle_request request st cfg env).1).lookup "id" = some (dictGet request "id")
    ∧ ((hasKey (handle_request request st cfg env).1 "result").xor
        (hasKey (handle_request request st cfg env).1 "error")) = true :=
  ⟨(handle_request_fields request st cfg env).1, (handle_request_fields request st cfg env).2.2⟩

theorem indexLoop_sum (env : Env) (l : List String) :
    (indexLoop env l).1 + (indexLoop env l).2.1.length = l.length := by
  induction l with
  | nil => simp [indexLoop]
  | cons fp rest ih =>
    simp only [indexLoop]
    rcases h : env.fileExists fp with _ | _
    · simp [h]; omega
    · rcases hr : env.readFile fp with e | content
      · simp [h, hr]; omega
      · rcases hi : env.ainsert content with e | u <;> simp [h, hr, hi] <;> omega

/-- Claim C3: `index_files` never raises; for every list of paths it returns
the result object whose `success_count` and `error_count` (the length of the
per-failure message list) partition the input: their sum is `total`, the
length of the input list. -/
theorem index_files_partition (file_paths : List String) (st : State) (cfg : Config)
    (env : Env) :
    ∃ (succ : Nat) (errs : List String),
      (index_files file_paths st cfg env).1 =
        Except.ok (.obj [("success_count", .num succ),
                         ("error_count", .num errs.length),
                         ("errors", .arr (errs.map JsonVal.str)),
                         ("total", .num file_paths.length)])
      ∧ succ + errs.length = file_paths.length := by
  refine ⟨(indexLoop env file_paths).1, (indexLoop env file_paths).2.1, ?_, indexLoop_sum env file_paths⟩
  rfl

/-- Claim C4: `insert_text` never raises: it returns `success = true` with
the character-count message when the engine's insert succeeds, and
`success = false` with the descriptive error message when it fails. -/
theorem insert_text_never_raises (text : String) (metadata : Option JsonVal) (st : State)
    (cfg : Config) (env : Env) :
    (insert_text text metadata st cfg env).1 =
      Except.ok (match env.ainsert text with
        | .ok _ =>
          .obj [("success", .bool true),
                ("message",
                 .str ("Successfully inserted " ++ toString text.length ++ " characters"))]
        | .error e =>
          .obj [("success", .bool false),
                ("message", .str ("Error inserting text: " ++ e.msg))]) := by
  rcases h : env.ainsert text with e | u <;> simp [insert_text, h]

/-- Claim C9: the `metadata` parameter of `insert_text` has no influence on
its result, state change, or effects: only the text matters. -/
theorem insert_text_metadata_irrelevant (text : String) (m₁ m₂ : Option JsonVal) (st : State)
    (cfg : Config) (env : Env) :
    insert_text text m₁ st cfg env = insert_text text m₂ st cfg env := rfl

theorem jeqStr_false_of_ne {v : JsonVal} {s : String} (h : v ≠ JsonVal.str s) :
    jeqStr v s = false := by
  rcases hb : jeqStr v s with _ | _
  · rfl
  · exact absurd ((jeqStr_true_iff v s).mp hb) h

/-- Claim C5: a request whose method value is not one of the registered
names is answered with the `-32603` application-error envelope whose message
names the unknown method, without invoking any handler: the state is
unchanged and no engine effect (in particular no handle construction)
occurs. -/
theorem unknown_method_no_effect (request : List (String × JsonVal)) (st : State)
    (cfg : Config) (env : Env)
    (h : ∀ name ∈ registeredMethods, dictGet request "method" ≠ JsonVal.str name) :
    handle_request request st cfg env =
      ([("jsonrpc", dictGetD request "jsonrpc" (.str "2.0")),
        ("id", dictGet request "id"),
        ("error", .obj [("code", .num (-32603)),
                        ("message",
                         .str ("Unknown method: " ++ pyStr (dictGet request "method"))),
                        ("data", .obj [("type", .str "ValueError")])])],
       st, []) := by
  have h1 := jeqStr_false_of_ne (h "ping" (by simp [registeredMethods]))
  have h2 := jeqStr_false_of_ne (h "index_files" (by simp [registeredMethods]))
  have h3 := jeqStr_false_of_ne (h "search_code" (by simp [registeredMethods]))
  have h4 := jeqStr_false_of_ne (h "get_entity" (by simp [registeredMethods]))
  have h5 := jeqStr_false_of_ne (h "get_relationships" (by simp [registeredMethods]))
  have h6 := jeqStr_false_of_ne (h "visualize_subgraph" (by simp [registeredMethods]))
  have h7 := jeqStr_false_of_ne (h "get_indexing_status" (by simp [registeredMethods]))
  have h8 := jeqStr_false_of_ne (h "insert_text" (by simp [registeredMethods]))
  simp [handle_request, dispatch, h1, h2, h3, h4, h5, h6, h7, h8]

/-- Claim C5 witness: the spec's own example, method `delete_everything`. -/
theorem unknown_method_no_effect_witness :
    handle_request [("jsonrpc", .str "2.0"), ("id", .num 1),
                    ("method", .str "delete_everything"), ("params", .obj [])] st0 cfg0 env0 =
      ([("jsonrpc", .str "2.0"), ("id", .num 1),
        ("error", .obj [("code", .num (-32603)),
                        ("message", .str "Unknown method: delete_everything"),
                        ("data", .obj [("type", .str "ValueError")])])],
       st0, []) := by
  have := unknown_method_no_effect
    [("jsonrpc", .str "2.0"), ("id", .num 1),
     ("method", .str "delete_everything"), ("params", .obj [])] st0 cfg0 env0
    (by intro name hname; fin_cases hname <;> simp [dictGet, List.lookup])
  simpa [dictGet, dictGetD, List.lookup, pyStr] using this

/-- Claim C10: a request with no `"method"` key is not a crash and not a
parse error: the chain falls through to the unknown-method branch with
Python `None`, producing the `-32603` envelope with message
`Unknown method: None` and the request's own id (null when absent). -/
theorem missing_method_key_error (request : List (String × JsonVal)) (st : State)
    (cfg : Config) (env : Env) (h : request.lookup "method" = none) :
    handle_request request st cfg env =
      ([("jsonrpc", dictGetD request "jsonrpc" (.str "2.0")),
        ("id", dictGet request "id"),
        ("error", .obj [("code", .num (-32603)),
                        ("message", .str "Unknown method: None"),
                        ("data", .obj [("type", .str "ValueError")])])],
       st, []) := by
  have hm : dictGet request "method" = JsonVal.null := by simp [dictGet, h]
  simp [handle_request, dispatch, hm, jeqStr, pyStr, pyRepr]

/-- Claim C10 witness: a request containing only an id. -/
theorem missing_method_key_error_witness :
    handle_request [("id", .num 7)] st0 cfg0 env0 =
      ([("jsonrpc", .str "2.0"), ("id", .num 7),
        ("error", .obj [("code", .num (-32603)),
                        ("message", .str "Unknown method: None"),
                        ("data", .obj [("type", .str "ValueError")])])],
       st0, []) := by
  have := missing_method_key_error [("id", .num 7)] st0 cfg0 env0 (by simp [List.lookup])
  simpa [dictGet, dictGetD, List.lookup] using this

/-- Claim C8: a non-blank line on which `json.loads` raises produces exactly
one output frame — the parse-error envelope with code `-32700` and null id —
and the loop then continues with the remaining lines. -/
theorem parse_error_one_frame (line : String) (rest : List String) (st : State)
    (cfg : Config) (env : Env) (e : PyErr) (hb : pyStrip line ≠ "")
    (hp : env.jsonLoads (pyStrip line) = .error e) :
    runLines (line :: rest) st cfg env =
      (parseErrorEnvelope e :: (runLines rest st cfg env).1, (runLines rest st cfg env).2)
    ∧ parseErrorEnvelope e =
        .obj [("jsonrpc", .str "2.0"), ("id", .null),
              ("error", .obj [("code", .num (-32700)), ("message", .str "Parse error"),
                              ("data", .str e.msg)])] := by
  constructor
  · simp [runLines, hb, hp]
  · rfl

/-- Claim C8 witness: the unparseable line `nope` followed by another
unparseable line. -/
theorem parse_error_one_frame_witness :
    runLines ["nope", "also bad"] st0 cfg0 env0 =
      (parseErrorEnvelope ⟨"JSONDecodeError", "Expecting value: line 1 column 1 (char 0)"⟩
         :: (runLines ["also bad"] st0 cfg0 env0).1,
       (runLines ["also bad"] st0 cfg0 env0).2)
    ∧ parseErrorEnvelope ⟨"JSONDecodeError", "Expecting value: line 1 column 1 (char 0)"⟩ =
        .obj [("jsonrpc", .str "2.0"), ("id", .null),
              ("error", .obj [("code", .num (-32700)), ("message", .str "Parse error"),
                              ("data", .str "Expecting value: line 1 column 1 (char 0)")])] :=
  parse_error_one_frame "nope" ["also bad"] st0 cfg0 env0
    ⟨"JSONDecodeError", "Expecting value: line 1 column 1 (char 0)"⟩ (by decide) rfl

/-- Claim C2 counterexample: the non-blank line `42` is valid JSON (the
integer 42), so `json.loads` succeeds, `request.get` then raises
`AttributeError`, and the trailing `except Exception` only logs it: the loop
writes no response frame at all for this line, where the claim requires
exactly one. -/
theorem run_swallows_nonobject_line :
    runLines ["42"] st0 cfg0 env0 = ([], st0) := rfl

/-- Claim C2 (amended): for every non-blank line that either fails to decode
or decodes to a JSON object, exactly one frame — a parse-error envelope or a
dispatcher response envelope, each carrying an id and exactly one of
result/error — is emitted before the remaining lines are processed. -/
theorem run_decodable_line_one_frame (line : String) (rest : List String) (st : State)
    (cfg : Config) (env : Env) (hb : pyStrip line ≠ "")
    (hobj : ∀ v, env.jsonLoads (pyStrip line) = Except.ok v → ∃ fields, v = JsonVal.obj fields) :
    ∃ (out : JsonVal) (st1 : State),
      runLines (line :: rest) st cfg env =
        (out :: (runLines rest st1 cfg env).1, (runLines rest st1 cfg env).2)
      ∧ isResponseFrame out := by
  rcases hp : env.jsonLoads (pyStrip line) with e | v
  · refine ⟨parseErrorEnvelope e, st, by simp [runLines, hb, hp], ?_⟩
    exact ⟨_, rfl, rfl, rfl⟩
  · obtain ⟨fields, rfl⟩ := hobj v hp
    refine ⟨.obj (handle_request fields st cfg env).1,
            (handle_request fields st cfg env).2.1, by simp [runLines, hb, hp], ?_⟩
    exact ⟨(handle_request fields st cfg env).1, rfl,
           (handle_request_fields fields st cfg env).2.1,
           (handle_request_fields fields st cfg env).2.2⟩

/-- Claim C2 (amended) witness: the line holding an empty JSON object. -/
theorem run_decodable_line_one_frame_witness :
    ∃ (out : JsonVal) (st1 : State),
      runLines ["\x7b\x7d"] st0 cfg0 env0 =
        (out :: (runLines [] st1 cfg0 env0).1, (runLines [] st1 cfg0 env0).2)
      ∧ isResponseFrame out :=
  run_decodable_line_one_frame "\x7b\x7d" [] st0 cfg0 env0 (by decide)
    (by
      intro v hv
      rw [show env0.jsonLoads (pyStrip "\x7b\x7d") = Except.ok (JsonVal.obj []) from rfl] at hv
      injection hv with h
      exact ⟨[], h.symm⟩)

/-- Claim C6 counterexample: `ping` is invoked without `**params`
(line 345), so a params mapping with a bogus key is silently ignored and the
call succeeds with `"pong"` instead of yielding an application error. -/
theorem ping_ignores_params_counterexample :
    handle_request [("jsonrpc", .str "2.0"), ("id", .num 1), ("method", .str "ping"),
                    ("params", .obj [("bogus", .num 1)])] st0 cfg0 env0 =
      ([("jsonrpc", .str "2.0"), ("id", .num 1), ("result", .str "pong")], st0, []) := rfl

theorem bindCheck_mismatch (fname : String) (required optionalNames : List String)
    (kvs : List (String × JsonVal))
    (h : (∃ kv ∈ kvs, kv.1 ∉ required ++ optionalNames)
       ∨ (∃ r ∈ required, kvs.lookup r = none)) :
    ∃ e : PyErr, bindCheck fname required optionalNames kvs = .error e ∧ e.ty = "TypeError" := by
  unfold bindCheck
  cases hf : kvs.find? (fun kv => !(required.contains kv.1 || optionalNames.contains kv.1)) with
  | some kv => exact ⟨_, rfl, rfl⟩
  | none =>
    cases hg : required.find? (fun r => !(hasKey kvs r)) with
    | some r => exact ⟨_, rfl, rfl⟩
    | none =>
      exfalso
      rcases h with ⟨kv, hkv, hnot⟩ | ⟨r, hr, hlook⟩
      · have hmem := List.find?_eq_none.mp hf kv hkv
        simp at hmem
        rw [List.mem_append] at hnot
        push_neg at hnot
        exact hnot.2 (hmem hnot.1)
      · have hsome := List.find?_eq_none.mp hg r hr
        simp [hasKey, hlook] at hsome

/-- Claim C6 (amended): for the six methods invoked as `handler(**params)`
(`index_files`, `search_code`, `get_entity`, `get_relationships`,
`visualize_subgraph`, `insert_text`), a params mapping with an undeclared
key or with a required key missing makes dispatch raise `TypeError` before
the handler body runs: the error response is produced with the state
unchanged and no engine effect.  For `ping` (and likewise
`get_indexing_status`) the params mapping is ignored entirely. -/
theorem bound_method_param_mismatch (f : String) (kvs : List (String × JsonVal)) (st : State)
    (cfg : Config) (env : Env) (hf : f ∈ boundMethods)
    (h : (∃ kv ∈ kvs, kv.1 ∉ (methodSig f).1 ++ (methodSig f).2)
       ∨ (∃ r ∈ (methodSig f).1, kvs.lookup r = none)) :
    (∃ e : PyErr,
        dispatch (.str f) (.obj kvs) st cfg env = (.error e, st, []) ∧ e.ty = "TypeError")
    ∧ (∀ (p : JsonVal) (st2 : State),
        dispatch (.str "ping") p st2 cfg env = (.ok (.str "pong"), st2, [])) := by
  refine ⟨?_, fun p st2 => rfl⟩
  simp only [boundMethods, List.mem_cons, List.not_mem_nil, or_false] at hf
  rcases hf with rfl | rfl | rfl | rfl | rfl | rfl
  · obtain ⟨e, he, hty⟩ := bindCheck_mismatch "index_files" ["file_paths"] [] kvs
      (by simpa [methodSig] using h)
    exact ⟨e, by simp [dispatch, jeqStr, callBound, he], hty⟩
  · obtain ⟨e, he, hty⟩ := bindCheck_mismatch "search_code" ["query"]
      ["mode", "top_k", "only_context", "response_type", "max_token_for_text_unit",
       "max_token_for_global_context", "max_token_for_local_context",
       "hl_keywords", "ll_keywords"] kvs (by simpa [methodSig] using h)
    exact ⟨e, by simp [dispatch, jeqStr, callBound, he], hty⟩
  · obtain ⟨e, he, hty⟩ := bindCheck_mismatch "get_entity" ["entity_name"] [] kvs
      (by simpa [methodSig] using h)
    exact ⟨e, by simp [dispatch, jeqStr, callBound, he], hty⟩
  · obtain ⟨e, he, hty⟩ := bindCheck_mismatch "get_relationships" ["entity_name"]
      ["relation_type", "depth"] kvs (by simpa [methodSig] using h)
    exact ⟨e, by simp [dispatch, jeqStr, callBound, he], hty⟩
  · obtain ⟨e, he, hty⟩ := bindCheck_mismatch "visualize_subgraph" ["query"]
      ["format", "max_nodes"] kvs (by simpa [methodSig] using h)
    exact ⟨e, by simp [dispatch, jeqStr, callBound, he], hty⟩
  · obtain ⟨e, he, hty⟩ := bindCheck_mismatch "insert_text" ["text"] ["metadata"] kvs
      (by simpa [methodSig] using h)
    exact ⟨e, by simp [dispatch, jeqStr, callBound, he], hty⟩

/-- Claim C6 (amended) witness: `index_files` with a misspelled key. -/
theorem bound_method_param_mismatch_witness :
    (∃ e : PyErr,
        dispatch (.str "index_files") (.obj [("file_pathz", JsonVal.str "x")]) st0 cfg0 env0 =
          (.error e, st0, []) ∧ e.ty = "TypeError")
    ∧ (∀ (p : JsonVal) (st2 : State),
        dispatch (.str "ping") p st2 cfg0 env0 = (.ok (.str "pong"), st2, [])) :=
  bound_method_param_mismatch "index_files" [("file_pathz", JsonVal.str "x")] st0 cfg0 env0
    (by simp [boundMethods])
    (Or.inl ⟨("file_pathz", JsonVal.str "x"), by simp, by simp [methodSig]⟩)

theorem ensureReady_of_isInit {st : State} (cfg : Config) (env : Env) (h : st.isInit = true) :
    ensureReady st cfg env = (st, []) := by
  simp [ensureReady, h]

theorem ensureReady_fst_isInit (st : State) (cfg : Config) (env : Env) :
    ((ensureReady st cfg env).1).isInit = true := by
  by_cases h : st.isInit = true <;> simp [ensureReady, h]

theorem ensureReady_count (st : State) (cfg : Config) (env : Env) :
    ((ensureReady st cfg env).2).count Effect.constructEngine ≤ 1 := by
  by_cases h : st.isInit = true <;> simp [ensureReady, h]

theorem ensureReady_fst_rag (st : State) (cfg : Config) (env : Env)
    (h : st.isInit = true → st.rag.isSome = true) :
    ((ensureReady st cfg env).1).rag.isSome = true := by
  by_cases hi : st.isInit = true
  · rw [ensureReady_of_isInit cfg env hi]
    exact h hi
  · simp [ensureReady, hi]

theorem indexLoop_count (env : Env) (l : List String) :
    ((indexLoop env l).2.2).count Effect.constructEngine = 0 := by
  induction l with
  | nil => simp [indexLoop]
  | cons fp rest ih =>
    simp only [indexLoop]
    rcases h : env.fileExists fp with _ | _
    · simpa [h] using ih
    · rcases hr : env.readFile fp with e | content
      · simpa [h, hr] using ih
      · rcases hi : env.ainsert content with e | u <;> simp [h, hr, hi, ih]

theorem index_files_rpc_spec (kvs : List (String × JsonVal)) (st : State) (cfg : Config)
    (env : Env) :
    (index_files_rpc kvs st cfg env).2.1 = (ensureReady st cfg env).1
    ∧ ((index_files_rpc kvs st cfg env).2.2).count Effect.constructEngine
      = ((ensureReady st cfg env).2).count Effect.constructEngine := by
  simp only [index_files_rpc, index_files]
  rcases hE : ensureReady st cfg env with ⟨st1, tr1⟩
  have hI : st1.isInit = true := by
    have := ensureReady_fst_isInit st cfg env
    rw [hE] at this
    exact this
  have h1 : ensureReady st1 cfg env = (st1, []) := ensureReady_of_isInit cfg env hI
  rcases hd : decodeStrList "file_paths" (dictGet kvs "file_paths") with e | paths <;>
    simp [hd, h1, indexLoop_count, List.count_append]

theorem insert_text_rpc_spec (kvs : List (String × JsonVal)) (st : State) (cfg : Config)
    (env : Env) :
    (insert_text_rpc kvs st cfg env).2.1 = (ensureReady st cfg env).1
    ∧ ((insert_text_rpc kvs st cfg env).2.2).count Effect.constructEngine
      = ((ensureReady st cfg env).2).count Effect.constructEngine := by
  simp only [insert_text_rpc, insert_text]
  rcases hE : ensureReady st cfg env with ⟨st1, tr1⟩
  have hI : st1.isInit = true := by
    have := ensureReady_fst_isInit st cfg env
    rw [hE] at this
    exact this
  have h1 : ensureReady st1 cfg env = (st1, []) := ensureReady_of_isInit cfg env hI
  rcases hd : decodeStr "text" (dictGet kvs "text") with e | text
  · simp [hd]
  · rcases ha : env.ainsert text with e | u <;> simp [hd, h1, ha, List.count_append]

theorem search_code_rpc_spec (kvs : List (String × JsonVal)) (st : State) (cfg : Config)
    (env : Env) :
    (search_code_rpc kvs st cfg env).2.1 = (ensureReady st cfg env).1
    ∧ ((search_code_rpc kvs st cfg env).2.2).count Effect.constructEngine
      = ((ensureReady st cfg env).2).count Effect.constructEngine := by
  simp only [search_code_rpc, search_code]
  rcases hE : ensureReady st cfg env with ⟨st1, tr1⟩
  have hI : st1.isInit = true := by
    have := ensureReady_fst_isInit st cfg env
    rw [hE] at this
    exact this
  have h1 : ensureReady st1 cfg env = (st1, []) := ensureReady_of_isInit cfg env hI
  rcases hd : decodeSearchArgs kvs with e | a
  · simp [hd]
  · refine ⟨?_, ?_⟩ <;> simp only [hd, h1] <;> split <;> simp [List.count_append]

theorem get_entity_rpc_spec (kvs : List (String × JsonVal)) (st : State) (cfg : Config)
    (env : Env) :
    (get_entity_rpc kvs st cfg env).2.1 = (ensureReady st cfg env).1
    ∧ ((get_entity_rpc kvs st cfg env).2.2).count Effect.constructEngine
      = ((ensureReady st cfg env).2).count Effect.constructEngine := by
  simp only [get_entity_rpc, get_entity]
  rcases hE : ensureReady st cfg env with ⟨st1, tr1⟩
  have hI : st1.isInit = true := by
    have := ensureReady_fst_isInit st cfg env
    rw [hE] at this
    exact this
  have h1 : ensureReady st1 cfg env = (st1, []) := ensureReady_of_isInit cfg env hI
  rcases hd : decodeStr "entity_name" (dictGet kvs "entity_name") with e | name
  · simp [hd]
  · refine ⟨?_, ?_⟩ <;> simp only [hd, h1] <;> split <;> simp [List.count_append]

theorem get_relationships_rpc_spec (kvs : List (String × JsonVal)) (st : State) (cfg : Config)
    (env : Env) :
    (get_relationships_rpc kvs st cfg env).2.1 = (ensureReady st cfg env).1
    ∧ ((get_relationships_rpc kvs st cfg env).2.2).count Effect.constructEngine
      = ((ensureReady st cfg env).2).count Effect.constructEngine := by
  simp only [get_relationships_rpc, get_relationships]
  rcases hE : ensureReady st cfg env with ⟨st1, tr1⟩
  have hI : st1.isInit = true := by
    have := ensureReady_fst_isInit st cfg env
    rw [hE] at this
    exact this
  have h1 : ensureReady st1 cfg env = (st1, []) := ensureReady_of_isInit cfg env hI
  refine ⟨?_, ?_⟩ <;> simp only [h1] <;> split <;> (try split) <;>
    simp [List.count_append]

theorem visualize_subgraph_rpc_spec (kvs : List (String × JsonVal)) (st : State)
    (cfg : Config) (env : Env) :
    (visualize_subgraph_rpc kvs st cfg env).2.1 = (ensureReady st cfg env).1
    ∧ ((visualize_subgraph_rpc kvs st cfg env).2.2).count Effect.constructEngine
      = ((ensureReady st cfg env).2).count Effect.constructEngine := by
  simp only [visualize_subgraph_rpc, visualize_subgraph]
  rcases hE : ensureReady st cfg env with ⟨st1, tr1⟩
  have hI : st1.isInit = true := by
    have := ensureReady_fst_isInit st cfg env
    rw [hE] at this
    exact this
  have h1 : ensureReady st1 cfg env = (st1, []) := ensureReady_of_isInit cfg env hI
  refine ⟨?_, ?_⟩ <;> simp only [h1] <;> split <;> (try split) <;>
    simp [List.count_append]

theorem get_indexing_status_spec (st : State) (cfg : Config) (env : Env) :
    (get_indexing_status st cfg env).2.1 = (ensureReady st cfg env).1
    ∧ ((get_indexing_status st cfg env).2.2).count Effect.constructEngine
      = ((ensureReady st cfg env).2).count Effect.constructEngine := by
  simp only [get_indexing_status]
  rcases hE : ensureReady st cfg env with ⟨st1, tr1⟩
  simp

theorem callBound_spec (fname : String) (required optionalNames : List String)
    (params : JsonVal) (st : State) (cfg : Config) (env : Env)
    (h : List (String × JsonVal) → Except PyErr JsonVal × State × List Effect)
    (hspec : ∀ kvs, (h kvs).2.1 = (ensureReady st cfg env).1
        ∧ ((h kvs).2.2).count Effect.constructEngine
          = ((ensureReady st cfg env).2).count Effect.constructEngine) :
    ((callBound fname required optionalNames params st h).2.1 = st
      ∧ ((callBound fname required optionalNames params st h).2.2).count
          Effect.constructEngine = 0)
    ∨ ((callBound fname required optionalNames params st h).2.1 = (ensureReady st cfg env).1
      ∧ ((callBound fname required optionalNames params st h).2.2).count
          Effect.constructEngine
        = ((ensureReady st cfg env).2).count Effect.constructEngine) := by
  unfold callBound
  cases params with
  | obj kvs =>
    cases hb : bindCheck fname required optionalNames kvs with
    | error e => left; simp [hb]
    | ok u => right; simpa [hb] using hspec kvs
  | null => left; simp
  | bool b => left; simp
  | num n => left; simp
  | str s => left; simp
  | arr xs => left; simp

theorem dispatch_spec (m p : JsonVal) (st : State) (cfg : Config) (env : Env) :
    ((dispatch m p st cfg env).2.1 = st
      ∧ ((dispatch m p st cfg env).2.2).count Effect.constructEngine = 0)
    ∨ ((dispatch m p st cfg env).2.1 = (ensureReady st cfg env).1
      ∧ ((dispatch m p st cfg env).2.2).count Effect.constructEngine
        = ((ensureReady st cfg env).2).count Effect.constructEngine) := by
  by_cases h1 : jeqStr m "ping" = true
  · left; simp [dispatch, h1, ping]
  · by_cases h2 : jeqStr m "index_files" = true
    · have := callBound_spec "index_files" ["file_paths"] [] p st cfg env
        (fun kvs => index_files_rpc kvs st cfg env)
        (fun kvs => index_files_rpc_spec kvs st cfg env)
      simpa [dispatch, h1, h2] using this
    · by_cases h3 : jeqStr m "search_code" = true
      · have := callBound_spec "search_code" ["query"]
          ["mode", "top_k", "only_context", "response_type", "max_token_for_text_unit",
           "max_token_for_global_context", "max_token_for_local_context",
           "hl_keywords", "ll_keywords"] p st cfg env
          (fun kvs => search_code_rpc kvs st cfg env)
          (fun kvs => search_code_rpc_spec kvs st cfg env)
        simpa [dispatch, h1, h2, h3] using this
      · by_cases h4 : jeqStr m "get_entity" = true
        · have := callBound_spec "get_entity" ["entity_name"] [] p st cfg env
            (fun kvs => get_entity_rpc kvs st cfg env)
            (fun kvs => get_entity_rpc_spec kvs st cfg env)
          simpa [dispatch, h1, h2, h3, h4] using this
        · by_cases h5 : jeqStr m "get_relationships" = true
          · have := callBound_spec "get_relationships" ["entity_name"]
              ["relation_type", "depth"] p st cfg env
              (fun kvs => get_relationships_rpc kvs st cfg env)
              (fun kvs => get_relationships_rpc_spec kvs st cfg env)
            simpa [dispatch, h1, h2, h3, h4, h5] using this
          · by_cases h6 : jeqStr m "visualize_subgraph" = true
            · have := callBound_spec "visualize_subgraph" ["query"] ["format", "max_nodes"]
                p st cfg env
                (fun kvs => visualize_subgraph_rpc kvs st cfg env)
                (fun kvs => visualize_subgraph_rpc_spec kvs st cfg env)
              simpa [dispatch, h1, h2, h3, h4, h5, h6] using this
            · by_cases h7 : jeqStr m "get_indexing_status" = true
              · have := get_indexing_status_spec st cfg env
                right
                simpa [dispatch, h1, h2, h3, h4, h5, h6, h7] using this
              · by_cases h8 : jeqStr m "insert_text" = true
                · have := callBound_spec "insert_text" ["text"] ["metadata"] p st cfg env
                    (fun kvs => insert_text_rpc kvs st cfg env)
                    (fun kvs => insert_text_rpc_spec kvs st cfg env)
                  simpa [dispatch, h1, h2, h3, h4, h5, h6, h7, h8] using this
                · left; simp [dispatch, h1, h2, h3, h4, h5, h6, h7, h8]

theorem handle_request_spec (fields : List (String × JsonVal)) (st : State) (cfg : Config)
    (env : Env) :
    ((handle_request fields st cfg env).2.1 = st
      ∧ ((handle_request fields st cfg env).2.2).count Effect.constructEngine = 0)
    ∨ ((handle_request fields st cfg env).2.1 = (ensureReady st cfg env).1
      ∧ ((handle_request fields st cfg env).2.2).count Effect.constructEngine
        = ((ensureReady st cfg env).2).count Effect.constructEngine) := by
  have h := dispatch_spec (dictGet fields "method")
    (dictGetD fields "params" (JsonVal.obj [])) st cfg env
  rcases hr : dispatch (dictGet fields "method") (dictGetD fields "params" (JsonVal.obj []))
      st cfg env with ⟨r | e, st1, tr⟩ <;> rw [hr] at h <;>
    simpa [handle_request, hr] using h

theorem applyOp_spec (op : Op) (st : State) (cfg : Config) (env : Env) :
    ((applyOp op st cfg env).1 = st
      ∧ ((applyOp op st cfg env).2).count Effect.constructEngine = 0)
    ∨ ((applyOp op st cfg env).1 = (ensureReady st cfg env).1
      ∧ ((applyOp op st cfg env).2).count Effect.constructEngine
        = ((ensureReady st cfg env).2).count Effect.constructEngine) := by
  cases op with
  | ready => right; exact ⟨rfl, rfl⟩
  | request fields => simpa [applyOp] using handle_request_spec fields st cfg env

theorem runOps_noop_of_isInit (ops : List Op) (st : State) (cfg : Config) (env : Env)
    (h : st.isInit = true) :
    (runOps ops st cfg env).1 = st
    ∧ ((runOps ops st cfg env).2).count Effect.constructEngine = 0 := by
  induction ops generalizing st with
  | nil => simp [runOps]
  | cons op rest ih =>
    have hE : ensureReady st cfg env = (st, []) := ensureReady_of_isInit cfg env h
    rcases applyOp_spec op st cfg env with ⟨h1, h2⟩ | ⟨h1, h2⟩
    · obtain ⟨hA, hB⟩ := ih st h
      constructor
      · simp [runOps, h1, hA]
      · simp [runOps, List.count_append, h1, h2, hB]
    · rw [hE] at h1 h2
      simp at h2
      obtain ⟨hA, hB⟩ := ih st h
      constructor
      · simp [runOps, h1, hA]
      · simp [runOps, List.count_append, h1, h2, hB]

theorem runOps_count_le (ops : List Op) (st : State) (cfg : Config) (env : Env) :
    ((runOps ops st cfg env).2).count Effect.constructEngine
      ≤ if st.isInit = true then 0 else 1 := by
  induction ops generalizing st with
  | nil => simp [runOps]
  | cons op rest ih =>
    rcases applyOp_spec op st cfg env with ⟨h1, h2⟩ | ⟨h1, h2⟩
    · have := ih st
      simpa [runOps, List.count_append, h1, h2] using this
    · have hI : ((ensureReady st cfg env).1).isInit = true := ensureReady_fst_isInit st cfg env
      have hrest := (runOps_noop_of_isInit rest (ensureReady st cfg env).1 cfg env hI).2
      by_cases h : st.isInit = true
      · rw [ensureReady_of_isInit cfg env h] at h1 h2
        simp at h2
        have := (runOps_noop_of_isInit rest st cfg env h).2
        simp [runOps, List.count_append, h1, h2, this, h]
      · have hcount := ensureReady_count st cfg env
        simp only [runOps, List.count_append, h1, h2, hrest, h]
        simpa using hcount

theorem runOps_rag (ops : List Op) (st : State) (cfg : Config) (env : Env)
    (h : st.isInit = true → st.rag.isSome = true) :
    (runOps ops st cfg env).1.isInit = true → (runOps ops st cfg env).1.rag.isSome = true := by
  induction ops generalizing st with
  | nil => simpa [runOps] using h
  | cons op rest ih =>
    rcases applyOp_spec op st cfg env with ⟨h1, _⟩ | ⟨h1, _⟩
    · simpa [runOps, h1] using ih st h
    · have hnext : ((ensureReady st cfg env).1).isInit = true →
          ((ensureReady st cfg env).1).rag.isSome = true :=
        fun _ => ensureReady_fst_rag st cfg env h
      simpa [runOps, h1] using ih (ensureReady st cfg env).1 hnext

/-- Claim C7: initialization is idempotent.  Over any sequence of calls
(direct readiness calls or dispatched requests) starting from a state
satisfying the handle invariant, at most one engine handle is ever
constructed; one readiness call leaves the flag set with a non-null handle;
and from an already-initialized state every sequence of calls returns with
the state unchanged and zero constructions. -/
theorem ensureReady_idempotent (ops : List Op) (st : State) (cfg : Config) (env : Env)
    (hinv : st.isInit = true → st.rag.isSome = true) :
    ((runOps ops st cfg env).2).count Effect.constructEngine ≤ 1
    ∧ ((ensureReady st cfg env).1).isInit = true
    ∧ ((ensureReady st cfg env).1).rag.isSome = true
    ∧ (st.isInit = true →
        (runOps ops st cfg env).1 = st
        ∧ ((runOps ops st cfg env).2).count Effect.constructEngine = 0) := by
  refine ⟨?_, ensureReady_fst_isInit st cfg env, ensureReady_fst_rag st cfg env hinv,
    fun h => runOps_noop_of_isInit ops st cfg env h⟩
  have := runOps_count_le ops st cfg env
  by_cases h : st.isInit = true <;> simp [h] at this <;> omega

/-- Claim C7 witness: two consecutive readiness calls followed by an
`insert_text` request, from the freshly constructed state. -/
theorem ensureReady_idempotent_witness :
    ((runOps [Op.ready, Op.ready,
        Op.request [("method", .str "insert_text"),
                    ("params", .obj [("text", .str "hi")])]] st0 cfg0 env0).2).count
        Effect.constructEngine ≤ 1
    ∧ ((ensureReady st0 cfg0 env0).1).isInit = true
    ∧ ((ensureReady st0 cfg0 env0).1).rag.isSome = true
    ∧ (st0.isInit = true →
        (runOps [Op.ready, Op.ready,
            Op.request [("method", .str "insert_text"),
                        ("params", .obj [("text", .str "hi")])]] st0 cfg0 env0).1 = st0
        ∧ ((runOps [Op.ready, Op.ready,
              Op.request [("method", .str "insert_text"),
                          ("params", .obj [("text", .str "hi")])]] st0 cfg0 env0).2).count
            Effect.constructEngine = 0) :=
  ensureReady_idempotent
    [Op.ready, Op.ready,
     Op.request [("method", .str "insert_text"), ("params", .obj [("text", .str "hi")])]]
    st0 cfg0 env0 (by simp [st0])
